import Mathlib

set_option maxRecDepth 40000

/-!
Verification development for the `WeatherAPI` class of
`yearly_weather_statistics_using_openmeteo.py`.

The embedding follows the source line by line:

* `processDates` embeds `__process_dates`: for every year in the inclusive
  range it produces the pair of Unix timestamps of `01/01/year 00:00` and
  `12/31/year 00:00`.  `datetime.strptime(...).timestamp()` is modelled in
  the proleptic Gregorian calendar with the process timezone taken as UTC
  (the notebook's runtime); both endpoints of a year carry the same UTC
  offset in any fixed-offset or DST timezone, so the differences of the two
  timestamps of one year — the only thing the day-count computation
  consumes — are timezone independent.
* `dateRangeLenLeft` embeds
  `len(pd.date_range(start, end, freq=Timedelta(seconds=86400), inclusive="left"))`:
  the grid points `start + k*86400` that lie in the half-open interval
  `[start, end)`.
* `codeDayCount` is the `days` value computed by the slicing loop of
  `__send_request` (lines 113–120).
* `PVal := Option ℚ` models a daily float value, `none` standing for the
  not-a-number sentinel; `npSum`, `npMean` and the fold operators `pminOp`,
  `pmaxOp` model `ndarray.sum`, `np.mean`, `np.min`, `np.max`, which all
  propagate not-a-number.  `np.min`/`np.max` of an empty slice raise
  `ValueError`, modelled by the `Except.error` outcome of the loop.
* `bucketLoop` embeds the `for i in range(0, end_year-start_year+1)` loop
  (lines 104–131): it slices `precip[last_ind : days+last_ind]` for each
  year and builds one output row per year.
* `mkPacket`, `sendRequest` and `get_yearly_precipitation` embed the
  request construction and the `try/except` around the fetch: a fetch
  exception is swallowed and the empty DataFrame (here `[]`) is returned.
-/

/-- Leap-year predicate of the proleptic Gregorian calendar, as implemented
by `datetime`/`pandas`. -/
def isLeap (y : ℕ) : Bool :=
  y % 4 == 0 && (y % 100 != 0 || y % 400 == 0)

/-- Month lengths of year `y`, January first. -/
def monthLengths (y : ℕ) : List ℕ :=
  [31, if isLeap y then 29 else 28, 31, 30, 31, 30, 31, 31, 30, 31, 30, 31]

/-- Zero-based index of the calendar day `m/d` inside year `y`. -/
def dayOfYearIndex (y m d : ℕ) : ℕ :=
  ((monthLengths y).take (m - 1)).sum + (d - 1)

/-- Number of days from `0001-01-01` to `y-01-01` in the proleptic
Gregorian calendar. -/
def daysBeforeYear (y : ℕ) : ℕ :=
  365 * (y - 1) + (y - 1) / 4 + (y - 1) / 400 - (y - 1) / 100

/-- Unix timestamp (seconds) of `y-m-d 00:00:00 UTC`: the value of
`int(datetime.strptime(f"m/d/y", "%m/%d/%Y").timestamp())` on the
notebook's UTC runtime. -/
def toTimestamp (y m d : ℕ) : ℤ :=
  86400 * ((daysBeforeYear y : ℤ) + dayOfYearIndex y m d - daysBeforeYear 1970)

/-- Embedding of `__process_dates`: the `(Jan 1, Dec 31)` timestamp pairs
for every year of the inclusive range. -/
def processDates (year_start year_end : ℕ) : List (ℤ × ℤ) :=
  (List.range (year_end + 1 - year_start)).map
    (fun i => (toTimestamp (year_start + i) 1 1, toTimestamp (year_start + i) 12 31))

/-- Length of `pd.date_range(start=s, end=e, freq=pd.Timedelta(seconds=f),
inclusive="left")` for `f > 0`: the number of grid points `s + k*f`,
`k ≥ 0`, lying in the half-open interval `[s, e)`. -/
def dateRangeLenLeft (s e f : ℤ) : ℕ :=
  if e ≤ s then 0 else (e - s - 1).toNat / f.toNat + 1

/-- The per-year `days` value computed by the loop of `__send_request`
(lines 115–120). -/
def codeDayCount (y : ℕ) : ℕ :=
  dateRangeLenLeft (toTimestamp y 1 1) (toTimestamp y 12 31) 86400

/-- True number of calendar days of year `y`. -/
def daysInYear (y : ℕ) : ℕ :=
  if isLeap y then 366 else 365

theorem codeDayCount_eq (y : ℕ) :
    codeDayCount y = (if isLeap y then 365 else 364) := by
  unfold codeDayCount dateRangeLenLeft toTimestamp dayOfYearIndex monthLengths daysBeforeYear
  cases hL : isLeap y <;> simp [hL] <;> omega

theorem codeDayCount_pos (y : ℕ) : 0 < codeDayCount y := by
  rw [codeDayCount_eq]; split <;> omega

/-- A daily precipitation value: `none` is the not-a-number sentinel. -/
abbrev PVal : Type := Option ℚ

/-- Lift of `+` to `PVal`; not-a-number propagates, as in numpy. -/
def padd : PVal → PVal → PVal
  | some a, some b => some (a + b)
  | _, _ => none

/-- `ndarray.sum()`: left fold of `padd` from `0.0` (empty slice sums to `0.0`). -/
def npSum (xs : List PVal) : PVal :=
  xs.foldl padd (some 0)

/-- `np.mean`: the sum divided by the length; empty input gives not-a-number. -/
def npMean (xs : List PVal) : PVal :=
  if xs.length = 0 then none
  else
    match npSum xs with
    | some s => some (s / (xs.length : ℚ))
    | none => none

/-- Binary minimum on `PVal`; not-a-number propagates, as `np.min` does. -/
def pminOp : PVal → PVal → PVal
  | some a, some b => some (min a b)
  | _, _ => none

/-- Binary maximum on `PVal`; not-a-number propagates, as `np.max` does. -/
def pmaxOp : PVal → PVal → PVal
  | some a, some b => some (max a b)
  | _, _ => none

/-- One output row of the DataFrame built by `__send_request`. -/
structure YearRow where
  year : ℕ
  precipitation_sum : PVal
  precipitation_daily_avg : PVal
  precipitation_min : PVal
  precipitation_max : PVal
deriving DecidableEq

/-- The row appended for a year whose slice is `a :: t` (lines 122–127). -/
def rowOf (y : ℕ) (a : PVal) (t : List PVal) : YearRow :=
  { year := y
    precipitation_sum := npSum (a :: t)
    precipitation_daily_avg := npMean (a :: t)
    precipitation_min := t.foldl pminOp a
    precipitation_max := t.foldl pmaxOp a }

/-- Total version of `rowOf` on a whole slice; on the empty slice (where the
code raises) it returns an all-not-a-number placeholder.  Used only to state
what the loop produces when it succeeds. -/
def rowOfSliceD (y : ℕ) : List PVal → YearRow
  | [] => { year := y, precipitation_sum := none, precipitation_daily_avg := none,
            precipitation_min := none, precipitation_max := none }
  | a :: t => rowOf y a t

/-- The ascending list of years of the inclusive range, i.e. the values
`i + start_year` for `i in range(0, end_year-start_year+1)`. -/
def yearsList (year_start year_end : ℕ) : List ℕ :=
  (List.range (year_end + 1 - year_start)).map (fun i => year_start + i)

/-- The slicing loop of `__send_request` (lines 113–129), recursing over the
years with explicit cursor `last_ind`.  The slice is
`precip[last_ind : days+last_ind]`; an empty slice makes `np.min` raise
`ValueError`, the `Except.error` outcome. -/
def loopAux : List ℕ → List PVal → ℕ → Except Unit (List YearRow)
  | [], _, _ => .ok []
  | y :: rest, precip, last_ind =>
    let days := codeDayCount y
    match (precip.drop last_ind).take days with
    | [] => .error ()
    | a :: t =>
      match loopAux rest precip (last_ind + days) with
      | .error e => .error e
      | .ok rows => .ok (rowOf y a t :: rows)

/-- The whole bucketing phase of `__send_request` on an already fetched
series. -/
def bucketLoop (precip : List PVal) (year_start year_end : ℕ) :
    Except Unit (List YearRow) :=
  loopAux (yearsList year_start year_end) precip 0

/-- Observer: the successive slices `precip[last_ind : days+last_ind]`
consumed by the loop, cursor advancing exactly as in the code. -/
def windowSlices (precip : List PVal) : List ℕ → ℕ → List (List PVal)
  | [], _ => []
  | y :: rest, last_ind =>
    ((precip.drop last_ind).take (codeDayCount y)) ::
      windowSlices precip rest (last_ind + codeDayCount y)

/-- The parameter dict handed to `self.OpenMeteo.weather_api`: the dict
built in `get_yearly_precipitation` (lines 137–143) plus the `start_date`
and `end_date` keys that `__send_request` adds before the call
(lines 82–83). -/
structure Packet where
  latitude : ℚ
  longitude : ℚ
  year_start : ℕ
  year_end : ℕ
  daily : String
  start_date : String
  end_date : String
deriving DecidableEq

/-- The packet for coordinates `long_lat` (longitude first, as in the
source) and the given year range. -/
def mkPacket (long_lat : ℚ × ℚ) (year_start year_end : ℕ) : Packet :=
  { latitude := long_lat.2
    longitude := long_lat.1
    year_start := year_start
    year_end := year_end
    daily := "precipitation_sum"
    start_date := toString year_start ++ "-01-01"
    end_date := toString year_end ++ "-12-31" }

/-- A fetch collaborator: `self.OpenMeteo.weather_api(...)[0].Daily()
.Variables(0).ValuesAsNumpy()`, or an exception. -/
def FetchFn : Type := Packet → Except Unit (List PVal)

/-- Embedding of `__send_request`: on a fetch exception the empty DataFrame
is returned (the `except` branch, lines 90–93); otherwise the bucketing
loop runs on the returned series. -/
def sendRequest (fetch : FetchFn) (packet : Packet) : Except Unit (List YearRow) :=
  match fetch packet with
  | .error _ => .ok []
  | .ok precip => bucketLoop precip packet.year_start packet.year_end

/-- Embedding of `get_yearly_precipitation` with the fetch collaborator as
an explicit parameter. -/
def get_yearly_precipitation (fetch : FetchFn) (year_start year_end : ℕ)
    (long_lat : ℚ × ℚ) : Except Unit (List YearRow) :=
  sendRequest fetch (mkPacket long_lat year_start year_end)

/-- Placeholder row used as the default of list lookups in statements. -/
def dummyRow : YearRow :=
  { year := 0, precipitation_sum := none, precipitation_daily_avg := none,
    precipitation_min := none, precipitation_max := none }

@[simp] theorem padd_none_left (x : PVal) : padd none x = none := by cases x <;> rfl

@[simp] theorem padd_none_right (x : PVal) : padd x none = none := by cases x <;> rfl

@[simp] theorem pminOp_none_left (x : PVal) : pminOp none x = none := by cases x <;> rfl

@[simp] theorem pminOp_none_right (x : PVal) : pminOp x none = none := by cases x <;> rfl

@[simp] theorem pmaxOp_none_left (x : PVal) : pmaxOp none x = none := by cases x <;> rfl

@[simp] theorem pmaxOp_none_right (x : PVal) : pmaxOp x none = none := by cases x <;> rfl

theorem foldl_padd_none (l : List PVal) : l.foldl padd none = none := by
  induction l with
  | nil => rfl
  | cons b t ih => simp [List.foldl_cons, ih]

theorem foldl_pminOp_none (l : List PVal) : l.foldl pminOp none = none := by
  induction l with
  | nil => rfl
  | cons b t ih => simp [List.foldl_cons, ih]

theorem foldl_pmaxOp_none (l : List PVal) : l.foldl pmaxOp none = none := by
  induction l with
  | nil => rfl
  | cons b t ih => simp [List.foldl_cons, ih]

theorem foldl_padd_of_mem_none (l : List PVal) (h : none ∈ l) (acc : PVal) :
    l.foldl padd acc = none := by
  induction l generalizing acc with
  | nil => simp at h
  | cons b t ih =>
    rcases List.mem_cons.mp h with hb | ht
    · subst hb; simp [List.foldl_cons, foldl_padd_none]
    · exact ih ht _

theorem foldl_pminOp_of_mem_none (l : List PVal) (h : none ∈ l) (acc : PVal) :
    l.foldl pminOp acc = none := by
  induction l generalizing acc with
  | nil => simp at h
  | cons b t ih =>
    rcases List.mem_cons.mp h with hb | ht
    · subst hb; simp [List.foldl_cons, foldl_pminOp_none]
    · exact ih ht _

theorem foldl_pmaxOp_of_mem_none (l : List PVal) (h : none ∈ l) (acc : PVal) :
    l.foldl pmaxOp acc = none := by
  induction l generalizing acc with
  | nil => simp at h
  | cons b t ih =>
    rcases List.mem_cons.mp h with hb | ht
    · subst hb; simp [List.foldl_cons, foldl_pmaxOp_none]
    · exact ih ht _

theorem npSum_of_mem_none (l : List PVal) (h : none ∈ l) : npSum l = none :=
  foldl_padd_of_mem_none l h _

theorem npMean_of_mem_none (l : List PVal) (h : none ∈ l) : npMean l = none := by
  unfold npMean
  rw [npSum_of_mem_none l h]
  split <;> rfl

/-- All four statistics of a slice containing the not-a-number sentinel are
not-a-number. -/
theorem rowOf_of_mem_none (y : ℕ) (a : PVal) (t : List PVal) (h : none ∈ a :: t) :
    rowOf y a t =
      { year := y, precipitation_sum := none, precipitation_daily_avg := none,
        precipitation_min := none, precipitation_max := none } := by
  unfold rowOf
  rcases List.mem_cons.mp h with hb | ht
  · subst hb
    simp [npSum_of_mem_none _ h, npMean_of_mem_none _ h,
      foldl_pminOp_none, foldl_pmaxOp_none]
  · simp [npSum_of_mem_none _ h, npMean_of_mem_none _ h,
      foldl_pminOp_of_mem_none _ ht, foldl_pmaxOp_of_mem_none _ ht]

theorem foldl_padd_replicate_some (c : ℚ) (n : ℕ) :
    ∀ a : ℚ, (List.replicate n (some c : PVal)).foldl padd (some a) = some (a + n * c) := by
  induction n with
  | zero => intro a; simp
  | succ m ih =>
    intro a
    rw [List.replicate_succ, List.foldl_cons]
    show (List.replicate m (some c : PVal)).foldl padd (some (a + c)) = _
    rw [ih (a + c)]
    congr 1
    push_cast
    ring

theorem npSum_replicate_some (c : ℚ) (n : ℕ) :
    npSum (List.replicate n (some c)) = some (n * c) := by
  unfold npSum
  rw [foldl_padd_replicate_some c n 0]
  simp

theorem foldl_pminOp_replicate_self (c : ℚ) (n : ℕ) :
    (List.replicate n (some c : PVal)).foldl pminOp (some c) = some c := by
  induction n with
  | zero => rfl
  | succ m ih =>
    rw [List.replicate_succ, List.foldl_cons]
    show (List.replicate m (some c : PVal)).foldl pminOp (pminOp (some c) (some c)) = _
    simpa [pminOp] using ih

theorem foldl_pmaxOp_replicate_self (c : ℚ) (n : ℕ) :
    (List.replicate n (some c : PVal)).foldl pmaxOp (some c) = some c := by
  induction n with
  | zero => rfl
  | succ m ih =>
    rw [List.replicate_succ, List.foldl_cons]
    show (List.replicate m (some c : PVal)).foldl pmaxOp (pmaxOp (some c) (some c)) = _
    simpa [pmaxOp] using ih

/-- A full slice of `d` copies of the value `c` reduces to the row
`(sum d*c, avg c, min c, max c)`. -/
theorem rowOf_replicate_some (y : ℕ) (c : ℚ) (d : ℕ) (hd : 0 < d) :
    rowOf y (some c) (List.replicate (d - 1) (some c)) =
      { year := y, precipitation_sum := some (d * c),
        precipitation_daily_avg := some c,
        precipitation_min := some c, precipitation_max := some c } := by
  have hrep : (some c : PVal) :: List.replicate (d - 1) (some c) =
      List.replicate d (some c) := by
    rw [← List.replicate_succ]
    congr 1
    omega
  unfold rowOf
  rw [hrep]
  have hsum := npSum_replicate_some c d
  have hlen : (List.replicate d (some c : PVal)).length = d := by simp
  have hmean : npMean (List.replicate d (some c)) = some c := by
    unfold npMean
    rw [hsum, hlen]
    have hq : (d : ℚ) ≠ 0 := by positivity
    simp only [hd.ne', if_false]
    rw [mul_comm, mul_div_assoc, div_self hq, mul_one]
  rw [hsum, hmean, foldl_pminOp_replicate_self, foldl_pmaxOp_replicate_self]

theorem windowSlices_cons (precip : List PVal) (y : ℕ) (rest : List ℕ) (c : ℕ) :
    windowSlices precip (y :: rest) c =
      ((precip.drop c).take (codeDayCount y)) ::
        windowSlices precip rest (c + codeDayCount y) := rfl

theorem loopAux_cons (y : ℕ) (rest : List ℕ) (precip : List PVal) (c : ℕ) :
    loopAux (y :: rest) precip c =
      match (precip.drop c).take (codeDayCount y) with
      | [] => .error ()
      | a :: t =>
        match loopAux rest precip (c + codeDayCount y) with
        | .error e => .error e
        | .ok rows => .ok (rowOf y a t :: rows) := rfl

/-- Every successful run of the slicing loop returns one row per year, and
the `i`-th row is computed from the `i`-th consumed slice alone. -/
theorem loopAux_characterize (ys : List ℕ) :
    ∀ (precip : List PVal) (c : ℕ) (rows : List YearRow),
      loopAux ys precip c = .ok rows →
      rows.length = ys.length ∧
        ∀ i, i < rows.length →
          rows.getD i dummyRow =
            rowOfSliceD (ys.getD i 0) ((windowSlices precip ys c).getD i []) := by
  induction ys with
  | nil =>
    intro precip c rows h
    simp only [loopAux] at h
    cases h
    exact ⟨rfl, by intro i hi; simp at hi⟩
  | cons y rest ih =>
    intro precip c rows h
    rw [loopAux_cons] at h
    cases hs : (precip.drop c).take (codeDayCount y) with
    | nil => rw [hs] at h; cases h
    | cons a t =>
      rw [hs] at h
      cases hr : loopAux rest precip (c + codeDayCount y) with
      | error e => rw [hr] at h; cases h
      | ok rows' =>
        rw [hr] at h
        cases h
        obtain ⟨hlen, hrows⟩ := ih precip (c + codeDayCount y) rows' hr
        refine ⟨by simp [hlen], ?_⟩
        intro i hi
        cases i with
        | zero =>
          simp only [List.getD_cons_zero, windowSlices_cons, rowOfSliceD, hs]
        | succ j =>
          simp only [List.getD_cons_succ, windowSlices_cons]
          exact hrows j (by simpa using hi)

/-- When the series is at least as long as the total of the window sizes the
loop succeeds (every slice is nonempty). -/
theorem loopAux_isOk (ys : List ℕ) :
    ∀ (precip : List PVal) (c : ℕ),
      c + (ys.map codeDayCount).sum ≤ precip.length →
      ∃ rows, loopAux ys precip c = .ok rows := by
  induction ys with
  | nil => intro precip c _; exact ⟨[], rfl⟩
  | cons y rest ih =>
    intro precip c hlen
    simp only [List.map_cons, List.sum_cons] at hlen
    have hd := codeDayCount_pos y
    have hslice : (precip.drop c).take (codeDayCount y) ≠ [] := by
      have : ((precip.drop c).take (codeDayCount y)).length =
          min (codeDayCount y) (precip.length - c) := by simp
      intro hnil
      rw [hnil] at this
      simp at this
      omega
    cases hs : (precip.drop c).take (codeDayCount y) with
    | nil => exact absurd hs hslice
    | cons a t =>
      obtain ⟨rows', hr⟩ := ih precip (c + codeDayCount y) (by omega)
      exact ⟨rowOf y a t :: rows', by rw [loopAux_cons, hs, hr]⟩

theorem take_drop_append {α : Type} (p q : List α) (c d : ℕ) (h : c + d ≤ p.length) :
    ((p ++ q).drop c).take d = (p.drop c).take d := by
  rw [List.drop_append_eq_append_drop]
  have h1 : c - p.length = 0 := by omega
  rw [h1, List.drop_zero, List.take_append_eq_append_take]
  have h2 : d - (p.drop c).length = 0 := by simp; omega
  rw [h2, List.take_zero, List.append_nil]

/-- Data beyond the computed windows is never read: appending anything to a
long-enough series does not change the loop's result. -/
theorem loopAux_append (ys : List ℕ) :
    ∀ (p q : List PVal) (c : ℕ),
      c + (ys.map codeDayCount).sum ≤ p.length →
      loopAux ys (p ++ q) c = loopAux ys p c := by
  induction ys with
  | nil => intro p q c _; rfl
  | cons y rest ih =>
    intro p q c hlen
    simp only [List.map_cons, List.sum_cons] at hlen
    rw [loopAux_cons, loopAux_cons,
      take_drop_append p q c (codeDayCount y) (by omega),
      ih p q (c + codeDayCount y) (by omega)]

theorem slice_replicate {α : Type} (x : α) (m c d : ℕ) (h : c + d ≤ m) :
    ((List.replicate m x).drop c).take d = List.replicate d x := by
  rw [List.drop_replicate, List.take_replicate]
  congr 1
  omega

/-- Loop evaluation on a constant series of value `v`: each year gets the
row `(d*v, v, v, v)` for its computed window length `d`. -/
theorem loopAux_replicate_some (v : ℚ) (ys : List ℕ) :
    ∀ (m c : ℕ), c + (ys.map codeDayCount).sum ≤ m →
    loopAux ys (List.replicate m (some v)) c =
      .ok (ys.map (fun y =>
        { year := y, precipitation_sum := some ((codeDayCount y : ℚ) * v),
          precipitation_daily_avg := some v,
          precipitation_min := some v, precipitation_max := some v })) := by
  induction ys with
  | nil => intro m c _; rfl
  | cons y rest ih =>
    intro m c hlen
    simp only [List.map_cons, List.sum_cons] at hlen
    have hd := codeDayCount_pos y
    have hs : ((List.replicate m (some v : PVal)).drop c).take (codeDayCount y) =
        (some v) :: List.replicate (codeDayCount y - 1) (some v) := by
      rw [slice_replicate _ m c (codeDayCount y) (by omega)]
      rw [← List.replicate_succ]
      congr 1
      omega
    simp only [loopAux_cons, hs, ih m (c + codeDayCount y) (by omega), List.map_cons,
      rowOf_replicate_some y v (codeDayCount y) hd]

/-- Loop evaluation on an all-not-a-number series: every row is entirely
not-a-number. -/
theorem loopAux_replicate_none (ys : List ℕ) :
    ∀ (m c : ℕ), c + (ys.map codeDayCount).sum ≤ m →
    loopAux ys (List.replicate m (none : PVal)) c =
      .ok (ys.map (fun y =>
        { year := y, precipitation_sum := none, precipitation_daily_avg := none,
          precipitation_min := none, precipitation_max := none })) := by
  induction ys with
  | nil => intro m c _; rfl
  | cons y rest ih =>
    intro m c hlen
    simp only [List.map_cons, List.sum_cons] at hlen
    have hd := codeDayCount_pos y
    have hs : ((List.replicate m (none : PVal)).drop c).take (codeDayCount y) =
        none :: List.replicate (codeDayCount y - 1) none := by
      rw [slice_replicate _ m c (codeDayCount y) (by omega)]
      rw [← List.replicate_succ]
      congr 1
      omega
    simp only [loopAux_cons, hs, ih m (c + codeDayCount y) (by omega), List.map_cons,
      rowOf_of_mem_none y none _ (by simp)]

theorem foldl_padd_map_some (l : List ℚ) :
    ∀ a : ℚ, (l.map some).foldl padd (some a) = some (a + l.sum) := by
  induction l with
  | nil => intro a; simp
  | cons b t ih =>
    intro a
    simp only [List.map_cons, List.foldl_cons]
    show (t.map some).foldl padd (some (a + b)) = _
    rw [ih (a + b)]
    simp [add_assoc]

theorem npSum_map_some (l : List ℚ) : npSum (l.map some) = some l.sum := by
  unfold npSum
  rw [foldl_padd_map_some l 0, zero_add]

theorem foldl_pminOp_map_some (t : List ℚ) :
    ∀ a : ℚ, (t.map some).foldl pminOp (some a) = some (t.foldl min a) := by
  induction t with
  | nil => intro a; rfl
  | cons b t ih =>
    intro a
    simp only [List.map_cons, List.foldl_cons]
    show (t.map some).foldl pminOp (some (min a b)) = _
    rw [ih (min a b)]

theorem foldl_pmaxOp_map_some (t : List ℚ) :
    ∀ a : ℚ, (t.map some).foldl pmaxOp (some a) = some (t.foldl max a) := by
  induction t with
  | nil => intro a; rfl
  | cons b t ih =>
    intro a
    simp only [List.map_cons, List.foldl_cons]
    show (t.map some).foldl pmaxOp (some (max a b)) = _
    rw [ih (max a b)]

/-- C1.  The claim says the per-year window length the implementation uses
is `366` for leap years and `365` otherwise.  The code computes it as the
size of `pd.date_range(Jan 1, Dec 31, freq=86400s, inclusive="left")`,
which excludes the right endpoint and is therefore one day short: `365`
for leap years and `364` otherwise.  Evaluated at the failing inputs
`2000` (leap) and `2001` (non-leap), and proved one-short in general. -/
theorem c1_day_count_off_by_one :
    codeDayCount 2001 = 364 ∧ codeDayCount 2000 = 365 ∧
      ∀ y : ℕ, codeDayCount y = daysInYear y - 1 := by
  refine ⟨by decide, by decide, fun y => ?_⟩
  rw [codeDayCount_eq, daysInYear]
  cases h : isLeap y <;> simp

/-- C2.  The claim says the consumed per-year sub-sequences reconstruct
the series exactly.  On range `[2000, 2001]` with a series of the correct
calendar length `731`, the loop produces the right number of rows (2) from
contiguous windows, but its windows are `365` and `364` long, so their
concatenation is only the `729`-element proper prefix of the series: the
last two elements are never consumed. -/
theorem c2_partition_incomplete :
    (windowSlices (List.replicate 731 (some 1)) (yearsList 2000 2001) 0).flatten =
        List.replicate 729 (some 1) ∧
      (windowSlices (List.replicate 731 (some 1)) (yearsList 2000 2001) 0).flatten ≠
        List.replicate 731 (some 1) ∧
      ∃ rows, bucketLoop (List.replicate 731 (some 1)) 2000 2001 = .ok rows ∧
        rows.length = 2 := by
  have h1 : yearsList 2000 2001 = [2000, 2001] := rfl
  have h2 : codeDayCount 2000 = 365 := by decide
  have h3 : codeDayCount 2001 = 364 := by decide
  have hflat : (windowSlices (List.replicate 731 (some 1)) (yearsList 2000 2001) 0).flatten =
      List.replicate 729 (some 1) := by
    rw [h1, windowSlices_cons, windowSlices_cons, h2, h3]
    show (((List.replicate 731 (some 1 : PVal)).drop 0).take 365 ::
        ((List.replicate 731 (some 1 : PVal)).drop 365).take 364 :: windowSlices _ [] _).flatten = _
    rw [slice_replicate _ 731 0 365 (by omega), slice_replicate _ 731 365 364 (by omega)]
    show List.replicate 365 (some 1 : PVal) ++ (List.replicate 364 (some 1) ++ []) = _
    rw [List.append_nil, ← List.replicate_add]
  refine ⟨hflat, ?_, ?_⟩
  · rw [hflat]
    intro h
    have := congrArg List.length h
    simp only [List.length_replicate] at this
    omega
  · obtain ⟨rows, hr⟩ := loopAux_isOk (yearsList 2000 2001) (List.replicate 731 (some 1)) 0
      (by decide)
    obtain ⟨hlen, _⟩ := loopAux_characterize _ _ _ _ hr
    exact ⟨rows, hr, by rw [hlen, h1]; rfl⟩

/-- C3.  The claim (spec scenario P6) expects rows with sums `366.0` and
`365.0` from a 731-element all-ones series for 2000–2001.  The code's
windows are 365 and 364 days, so it returns sums `365.0` and `364.0`: one
day of each year's data is misattributed or dropped. -/
theorem c3_scenario_off_by_one :
    get_yearly_precipitation (fun _ => .ok (List.replicate 731 (some 1))) 2000 2001 (1, 2) =
      .ok [{ year := 2000, precipitation_sum := some 365, precipitation_daily_avg := some 1,
             precipitation_min := some 1, precipitation_max := some 1 },
           { year := 2001, precipitation_sum := some 364, precipitation_daily_avg := some 1,
             precipitation_min := some 1, precipitation_max := some 1 }] := by
  show sendRequest _ _ = _
  unfold sendRequest
  show bucketLoop (List.replicate 731 (some 1)) 2000 2001 = _
  unfold bucketLoop
  have h1 : yearsList 2000 2001 = [2000, 2001] := rfl
  rw [h1, loopAux_replicate_some 1 [2000, 2001] 731 0 (by decide)]
  have h2 : codeDayCount 2000 = 365 := by decide
  have h3 : codeDayCount 2001 = 364 := by decide
  simp [h2, h3]

/-- C4 counterexample.  A series of 400 values for the single year 2001
matches neither the code's window total (364) nor the true calendar total
(365), yet the reduction completes and returns a full table computed from
a prefix — it does not fail with any `SeriesLengthMismatch`. -/
theorem c4_counterexample :
    (List.replicate 400 (some (1 : ℚ)) : List PVal).length ≠
        ((yearsList 2001 2001).map codeDayCount).sum ∧
      (List.replicate 400 (some (1 : ℚ)) : List PVal).length ≠
        ((yearsList 2001 2001).map daysInYear).sum ∧
      bucketLoop (List.replicate 400 (some 1)) 2001 2001 =
        .ok [{ year := 2001, precipitation_sum := some 364,
               precipitation_daily_avg := some 1,
               precipitation_min := some 1, precipitation_max := some 1 }] := by
  refine ⟨by decide, by decide, ?_⟩
  unfold bucketLoop
  have h1 : yearsList 2001 2001 = [2001] := rfl
  rw [h1, loopAux_replicate_some 1 [2001] 400 0 (by decide)]
  have h3 : codeDayCount 2001 = 364 := by decide
  simp [h3]

/-- C4, amended.  The claim says a length mismatch makes the reduction
fail with `SeriesLengthMismatch` and no partial table.  The code performs
no length validation at all: whenever the series is at least as long as
the total of the computed windows — in particular when it is strictly
longer — the loop succeeds, returns one row per year, and silently ignores
the surplus data (appending anything to the series leaves the result
unchanged).  When the series is too short the loop either truncates
windows or stops with numpy's `ValueError` on an empty slice; no
`SeriesLengthMismatch` failure exists anywhere. -/
theorem c4_no_length_validation (year_start year_end : ℕ) (p q : List PVal)
    (h : ((yearsList year_start year_end).map codeDayCount).sum ≤ p.length) :
    bucketLoop (p ++ q) year_start year_end = bucketLoop p year_start year_end ∧
      ∃ rows, bucketLoop p year_start year_end = .ok rows ∧
        rows.length = year_end + 1 - year_start := by
  constructor
  · exact loopAux_append (yearsList year_start year_end) p q 0 (by omega)
  · obtain ⟨rows, hr⟩ :=
      loopAux_isOk (yearsList year_start year_end) p 0 (by omega)
    obtain ⟨hlen, _⟩ :=
      loopAux_characterize (yearsList year_start year_end) p 0 rows hr
    refine ⟨rows, hr, ?_⟩
    rw [hlen]
    unfold yearsList
    rw [List.length_map, List.length_range]

/-- Witness for the amended C4 at a concrete mismatched input: 400 values
for the single year 2001 (window total 364). -/
theorem c4_witness :
    ((yearsList 2001 2001).map codeDayCount).sum ≤
        (List.replicate 364 (some (1 : ℚ)) : List PVal).length ∧
      bucketLoop (List.replicate 364 (some 1) ++ List.replicate 36 (some 1)) 2001 2001 =
        bucketLoop (List.replicate 364 (some 1)) 2001 2001 :=
  ⟨by decide, (c4_no_length_validation 2001 2001 _ _ (by decide)).1⟩

/-- C5 counterexample.  With a fetch collaborator that reports a terminal
failure, the top-level operation does not surface any failure: it returns
the empty table as a success value. -/
theorem c5_counterexample :
    get_yearly_precipitation (fun _ => .error ()) 2000 2001 (1, 2) = .ok [] := rfl

/-- C5, amended.  The claim says a fetch failure surfaces an explicit
`FetchFailed` failure and never an empty table as a success.  The code's
`except` branch does the opposite: every fetch exception is swallowed and
the empty DataFrame is returned as a normal result (no `FetchFailed`
exists). -/
theorem c5_silent_empty_on_fetch_failure (f : FetchFn) (year_start year_end : ℕ)
    (long_lat : ℚ × ℚ) (h : f (mkPacket long_lat year_start year_end) = .error ()) :
    get_yearly_precipitation f year_start year_end long_lat = .ok [] := by
  unfold get_yearly_precipitation sendRequest
  rw [h]

/-- Witness for the amended C5 at a concrete always-failing collaborator. -/
theorem c5_witness :
    ((fun _ => .error ()) : FetchFn) (mkPacket (3, 4) 2005 2006) = .error () ∧
      get_yearly_precipitation (fun _ => .error ()) 2005 2006 (3, 4) = .ok [] :=
  ⟨rfl, c5_silent_empty_on_fetch_failure _ 2005 2006 (3, 4) rfl⟩

/-- C6 counterexample.  With `year_start = 2020 > year_end = 2019` and a
fetch collaborator that succeeds, the operation does not fail with
`InvalidRange` (or anything else): it completes normally with an empty
table. -/
theorem c6_counterexample :
    get_yearly_precipitation (fun _ => .ok [some 1]) 2020 2019 (1, 2) = .ok [] := rfl

/-- C6, amended.  The claim says an inverted range fails with
`InvalidRange` before any fetch.  The code performs no range validation:
the request packet is still built — with `start_date` *after* `end_date` —
and handed to the fetch collaborator, and whatever the fetch returns the
call completes with an empty table instead of failing. -/
theorem c6_no_range_validation (f : FetchFn) (lon lat : ℚ) :
    get_yearly_precipitation f 2020 2019 (lon, lat) = .ok [] ∧
      (mkPacket (lon, lat) 2020 2019).start_date = "2020-01-01" ∧
      (mkPacket (lon, lat) 2020 2019).end_date = "2019-12-31" := by
  refine ⟨?_, rfl, rfl⟩
  unfold get_yearly_precipitation sendRequest
  rcases hf : f (mkPacket (lon, lat) 2020 2019) with e | precip
  · rfl
  · show bucketLoop precip (mkPacket (lon, lat) 2020 2019).year_start
        (mkPacket (lon, lat) 2020 2019).year_end = .ok []
    rw [show (mkPacket (lon, lat) 2020 2019).year_start = 2020 from rfl,
      show (mkPacket (lon, lat) 2020 2019).year_end = 2019 from rfl]
    unfold bucketLoop
    rw [show yearsList 2020 2019 = [] from rfl]
    rfl

/-- C7.  For a slice of plain (non-sentinel) daily values `a :: t` whose
length is the window's day count `d`, the produced row carries the
arithmetic sum, the sum divided by `d`, the minimum and the maximum of the
values. -/
theorem c7_row_statistics (y d : ℕ) (a : ℚ) (t : List ℚ)
    (h : (a :: t).length = d) :
    rowOf y (some a) (t.map some) =
      { year := y, precipitation_sum := some ((a :: t).sum),
        precipitation_daily_avg := some ((a :: t).sum / (d : ℚ)),
        precipitation_min := some (t.foldl min a),
        precipitation_max := some (t.foldl max a) } := by
  unfold rowOf
  simp only [← List.map_cons]
  have hsum : npSum ((a :: t).map some) = some ((a :: t).sum) := npSum_map_some _
  have hmean : npMean ((a :: t).map some) = some ((a :: t).sum / (d : ℚ)) := by
    unfold npMean
    rw [hsum]
    have hlen : ((a :: t).map some).length = d := by rw [List.length_map, h]
    rw [hlen]
    have hd : d ≠ 0 := by
      simp only [List.length_cons] at h
      omega
    simp [hd]
  rw [hsum, hmean, foldl_pminOp_map_some, foldl_pmaxOp_map_some]

/-- Witness for C7 at the spec's example window `[1.0, 2.0, 3.0, 4.0]`
with day count 4: sum 10, average 5/2 = 2.5, minimum 1, maximum 4. -/
theorem c7_witness :
    ((1 : ℚ) :: [2, 3, 4]).length = 4 ∧
      rowOf 1999 (some 1) ([(2 : ℚ), 3, 4].map some) =
        { year := 1999, precipitation_sum := some 10,
          precipitation_daily_avg := some (5 / 2),
          precipitation_min := some 1, precipitation_max := some 4 } := by
  refine ⟨rfl, ?_⟩
  rw [c7_row_statistics 1999 4 1 [2, 3, 4] rfl]
  norm_num [List.sum_cons, List.foldl_cons, List.foldl_nil, min_def, max_def]

/-- C8.  If the slice the loop consumed for row `j` contains the
not-a-number sentinel, row `j`'s sum, average, minimum and maximum are all
not-a-number; and every row `i` of a successful run is a function of its
own consumed slice alone, so the sentinel cannot influence any other
year's statistics. -/
theorem c8_nan_propagation (year_start year_end : ℕ) (p : List PVal)
    (rows : List YearRow) (j : ℕ)
    (hok : bucketLoop p year_start year_end = .ok rows) (hj : j < rows.length)
    (hnan : none ∈ (windowSlices p (yearsList year_start year_end) 0).getD j []) :
    ((rows.getD j dummyRow).precipitation_sum = none ∧
        (rows.getD j dummyRow).precipitation_daily_avg = none ∧
        (rows.getD j dummyRow).precipitation_min = none ∧
        (rows.getD j dummyRow).precipitation_max = none) ∧
      ∀ i, i < rows.length →
        rows.getD i dummyRow =
          rowOfSliceD ((yearsList year_start year_end).getD i 0)
            ((windowSlices p (yearsList year_start year_end) 0).getD i []) := by
  obtain ⟨hlen, hrows⟩ :=
    loopAux_characterize (yearsList year_start year_end) p 0 rows hok
  refine ⟨?_, hrows⟩
  have hj' := hrows j hj
  cases hs : (windowSlices p (yearsList year_start year_end) 0).getD j [] with
  | nil => rw [hs] at hnan; simp at hnan
  | cons a t =>
    rw [hs] at hnan hj'
    rw [hj']
    rw [show rowOfSliceD ((yearsList year_start year_end).getD j 0) (a :: t) =
        rowOf ((yearsList year_start year_end).getD j 0) a t from rfl]
    rw [rowOf_of_mem_none _ a t hnan]
    exact ⟨rfl, rfl, rfl, rfl⟩

/-- Witness for C8: a two-year range whose series is entirely the
not-a-number sentinel; the first row's sum is not-a-number. -/
theorem c8_witness :
    bucketLoop (List.replicate 728 (none : PVal)) 1 2 =
        .ok [{ year := 1, precipitation_sum := none, precipitation_daily_avg := none,
               precipitation_min := none, precipitation_max := none },
             { year := 2, precipitation_sum := none, precipitation_daily_avg := none,
               precipitation_min := none, precipitation_max := none }] ∧
      none ∈ (windowSlices (List.replicate 728 (none : PVal)) (yearsList 1 2) 0).getD 0 [] ∧
      (([{ year := 1, precipitation_sum := none, precipitation_daily_avg := none,
           precipitation_min := none, precipitation_max := none },
         { year := 2, precipitation_sum := none, precipitation_daily_avg := none,
           precipitation_min := none, precipitation_max := none }] : List YearRow).getD 0
          dummyRow).precipitation_sum = none := by
  have h1 : yearsList 1 2 = [1, 2] := rfl
  have hok : bucketLoop (List.replicate 728 (none : PVal)) 1 2 =
      .ok [{ year := 1, precipitation_sum := none, precipitation_daily_avg := none,
             precipitation_min := none, precipitation_max := none },
           { year := 2, precipitation_sum := none, precipitation_daily_avg := none,
             precipitation_min := none, precipitation_max := none }] := by
    unfold bucketLoop
    rw [h1, loopAux_replicate_none [1, 2] 728 0 (by decide)]
    rfl
  have hd1 : codeDayCount 1 = 364 := by decide
  have hnan : none ∈ (windowSlices (List.replicate 728 (none : PVal)) (yearsList 1 2) 0).getD 0 [] := by
    rw [h1, windowSlices_cons]
    show none ∈ ((List.replicate 728 (none : PVal)).drop 0).take (codeDayCount 1)
    rw [hd1, slice_replicate _ 728 0 364 (by omega)]
    simp [List.mem_replicate]
  exact ⟨hok, hnan, ((c8_nan_propagation 1 2 _ _ 0 hok (by decide) hnan).1).1⟩

/-- C9.  If the fetch collaborator raises, `get_yearly_precipitation`
swallows the exception and returns the empty DataFrame as a success — the
identical value a successful call over an empty (inverted) range returns,
so the caller cannot tell the two apart. -/
theorem c9_empty_table_on_fetch_exception (f : FetchFn) (year_start year_end : ℕ)
    (long_lat : ℚ × ℚ) (e : Unit)
    (h : f (mkPacket long_lat year_start year_end) = .error e) :
    get_yearly_precipitation f year_start year_end long_lat = .ok [] ∧
      get_yearly_precipitation (fun _ => .ok [some 1, some 2]) 2021 2020 long_lat =
        .ok [] := by
  constructor
  · unfold get_yearly_precipitation sendRequest
    rw [h]
  · unfold get_yearly_precipitation sendRequest
    show bucketLoop [some 1, some 2] (mkPacket long_lat 2021 2020).year_start
        (mkPacket long_lat 2021 2020).year_end = .ok []
    rw [show (mkPacket long_lat 2021 2020).year_start = 2021 from rfl,
      show (mkPacket long_lat 2021 2020).year_end = 2020 from rfl]
    unfold bucketLoop
    rw [show yearsList 2021 2020 = [] from rfl]
    rfl

/-- Witness for C9 at a concrete always-raising collaborator. -/
theorem c9_witness :
    ((fun _ => .error ()) : FetchFn) (mkPacket (5, 6) 1980 1985) = .error () ∧
      get_yearly_precipitation (fun _ => .error ()) 1980 1985 (5, 6) = .ok [] :=
  ⟨rfl, (c9_empty_table_on_fetch_exception _ 1980 1985 (5, 6) () rfl).1⟩

/-- C10.  The first element of the coordinate tuple is sent as the
`longitude` request parameter and the second as `latitude`
(longitude-first, lines 138–139 of the source). -/
theorem c10_longitude_first (long_lat : ℚ × ℚ) (year_start year_end : ℕ) :
    (mkPacket long_lat year_start year_end).longitude = long_lat.1 ∧
      (mkPacket long_lat year_start year_end).latitude = long_lat.2 :=
  ⟨rfl, rfl⟩
